import Mathlib

/-!
# Verification of `generate_data_and_plot/generate_all_data.py`

A shallow embedding of the experiment harness of the
`ridesharing_topology_dependence` repository: the uniform request
generator (`req_generator_uniform`), the rate-sweep driver
(`simulate_different_request_rates`), the single-rate-point simulation
(`simulate_single_request_rate`) and the orchestrating `__main__` block.

Modelling conventions:
* Python floats are modelled by `ℚ` (exact arithmetic; floating-point
  rounding is outside the embedding).
* The process-wide random source (`random.sample`,
  `np.random.exponential`) is modelled by oracle functions indexed by a
  draw counter; their distributional contracts appear as hypotheses.
* The filesystem is an association list from paths to pickled result
  stores; `os.path.exists` is a lookup on it.
* The simulation engine (`toysimulations.ZeroDetourBus`) is repository
  code that is not part of the harness source; it is modelled from the
  spec as an opaque oracle consuming the constructor arguments and
  yielding the `(req_data, insertion_data)` pair.
-/

namespace GenerateAllData

/-- A networkx-style undirected graph, reduced to what the harness
consumes: an ordered node list (`G.nodes()`) and an adjacency test used
for shortest-path queries. -/
structure Graph (V : Type) where
  nodes : List V
  adj : V → V → Bool

/-- `nx.cycle_graph n`: nodes `0, …, n-1`, node `i` adjacent to
`(i+1) % n`. -/
def cycle_graph (n : ℕ) : Graph ℕ :=
  ⟨List.range n, fun u v => decide (v = (u + 1) % n) || decide (u = (v + 1) % n)⟩

/-- `nx.star_graph n`: hub `0` plus leaves `1, …, n` (so `n + 1` nodes
in total); every edge joins the hub to a leaf. -/
def star_graph (n : ℕ) : Graph ℕ :=
  ⟨List.range (n + 1),
   fun u v => (decide (u = 0) && decide (v ≠ 0)) || (decide (v = 0) && decide (u ≠ 0))⟩

/-- `nx.grid_graph((n,))`: a path on `n` nodes `0, …, n-1`. -/
def grid_graph_1d (n : ℕ) : Graph ℕ :=
  ⟨List.range n, fun u v => decide (v = u + 1) || decide (u = v + 1)⟩

/-- `nx.grid_2d_graph m n`: nodes `(i, j)` with `i < m`, `j < n`,
adjacent when they differ by one in exactly one coordinate. -/
def grid_2d_graph (m n : ℕ) : Graph (ℕ × ℕ) :=
  ⟨(List.range m).flatMap (fun i => (List.range n).map (fun j => (i, j))),
   fun p q =>
     (decide (p.1 = q.1) && (decide (p.2 = q.2 + 1) || decide (q.2 = p.2 + 1))) ||
     (decide (p.2 = q.2) && (decide (p.1 = q.1 + 1) || decide (q.1 = p.1 + 1)))⟩

section ShortestPaths

variable {V : Type} [DecidableEq V] [BEq V]

/-- The neighbour list of `u`, read off the adjacency test. -/
def neighborsOf (g : Graph V) (u : V) : List V :=
  g.nodes.filter (fun v => g.adj u v)

/-- Breadth-first search layer expansion: `dist` maps the already
visited nodes to their distance, `frontier` is the most recent layer,
`depth` its distance.  `fuel` bounds the number of layers. -/
def bfsAux (g : Graph V) : ℕ → List (V × ℕ) → List V → ℕ → List (V × ℕ)
  | 0, dist, _, _ => dist
  | fuel + 1, dist, frontier, depth =>
    let nexts :=
      ((frontier.flatMap (fun u => neighborsOf g u)).filter
        (fun v => (dist.lookup v).isNone)).dedup
    match nexts with
    | [] => dist
    | _ :: _ => bfsAux g fuel (dist ++ nexts.map (fun v => (v, depth + 1))) nexts (depth + 1)

/-- `nx.shortest_path_length` for unweighted graphs: hop distance via
breadth-first search (`none` when `v` is unreachable from `u`). -/
def shortest_path_length (g : Graph V) (u v : V) : Option ℕ :=
  (bfsAux g g.nodes.length [(u, 0)] [u] 0).lookup v

/-- `nx.average_shortest_path_length`: the mean hop distance over all
ordered pairs of distinct nodes, `Σ d(s,t) / (n (n-1))`.  networkx
raises on disconnected input; the model totalises the unreachable case
with distance `0`, which no experiment topology exercises (all are
connected). -/
def average_shortest_path_length (g : Graph V) : ℚ :=
  let pairs := g.nodes.flatMap (fun u => g.nodes.map (fun v => (u, v)))
  let dsum :=
    ((pairs.filter (fun p => p.1 ≠ p.2)).map
      (fun p => ((shortest_path_length g p.1 p.2).getD 0))).sum
  (dsum : ℚ) / ((g.nodes.length * (g.nodes.length - 1) : ℕ) : ℚ)

end ShortestPaths

/-- `np.linspace a b num`: `num` points from `a` to `b` inclusive, at
mutual distance `(b - a) / (num - 1)`. -/
def linspace (a b : ℚ) (num : ℕ) : List ℚ :=
  (List.range num).map (fun i : ℕ => a + (i : ℚ) * ((b - a) / ((num : ℚ) - 1)))

/-- Modelled from the spec: `toysimulations.Request`, constructed
positionally as `Request(req_idx, t, orig, dest)` — a sequence index,
an arrival time, an origin node and a destination node. -/
structure Request (V : Type) where
  req_idx : ℕ
  t : ℚ
  orig : V
  dest : V
  deriving DecidableEq, Repr

/-- The body of `req_generator_uniform`'s `while req_idx < num_reqs`
loop.  `fuel` is the number of requests still to emit, `t` the running
time accumulator and `req_idx` the requests emitted so far.  Each
iteration draws an origin/destination pair (`random.sample(graph.nodes(),
k=2)`, oracle `sample2`) and an inter-arrival time
(`np.random.exponential(1/req_rate)`, oracle `expDraw`), adds the
latter to `t`, increments `req_idx` and yields the request. -/
def reqGenLoop {V : Type} (sample2 : ℕ → V × V) (expDraw : ℕ → ℚ) :
    ℕ → ℚ → ℕ → List (Request V)
  | 0, _, _ => []
  | fuel + 1, t, req_idx =>
    let od := sample2 req_idx
    let delta_t := expDraw req_idx
    ⟨req_idx + 1, t + delta_t, od.1, od.2⟩ ::
      reqGenLoop sample2 expDraw fuel (t + delta_t) (req_idx + 1)

/-- `req_generator_uniform(graph, num_reqs, req_rate)`: the Poisson
request stream.  `req_rate` parameterises only the distribution of the
`expDraw` oracle (mean `1/req_rate`), so it does not appear in the
computation itself. -/
def req_generator_uniform {V : Type} (graph : Graph V) (num_reqs : ℕ) (req_rate : ℚ)
    (sample2 : ℕ → V × V) (expDraw : ℕ → ℚ) : List (Request V) :=
  let _ := graph
  let _ := req_rate
  reqGenLoop sample2 expDraw num_reqs 0 0

/-- Modelled from the spec: `toysimulations.Network(G, network_type)` —
the wrapped graph handed to the engine; the tag selects the engine's
route-volume accounting and is otherwise opaque to the harness. -/
structure Network (V : Type) where
  graph : Graph V
  network_type : String

/-- Modelled from the spec: the constructor arguments of
`toysimulations.ZeroDetourBus(nG, request_stream, network_type,
start_node)` — everything the harness passes to the external
Simulation Engine for one rate point. -/
structure EngineCall (V : Type) where
  nG : Network V
  requests : List (Request V)
  network_type : String
  start : V

/-- The process-wide random source and the external engine, as oracles:
`sample2` models `random.sample(graph.nodes(), k=2)`, `sample1` models
`random.sample(G.nodes(), k=1)[0]`, `expDraw` models
`np.random.exponential(1/req_rate)`, and `runEngine` models
constructing a `ZeroDetourBus`, calling `simulate_all_requests()` and
reading back `(sim.req_data, sim.insertion_data)` (modelled from the
spec; the engine is an external black box). -/
structure Oracles (V ρ : Type) where
  sample2 : ℕ → V × V
  sample1 : ℕ → V
  expDraw : ℕ → ℚ
  runEngine : EngineCall V → ρ × ρ

/-- The rate normalization `req_rate = x/2/l_avg` from
`simulate_single_request_rate`. -/
def req_rate (x l_avg : ℚ) : ℚ :=
  x / 2 / l_avg

/-- The engine invocation built by `simulate_single_request_rate`:
`num_reqs = 10000` requests generated at the normalized rate, the
wrapped graph, the topology tag and one sampled start node. -/
def engineCallOf {V ρ : Type} (o : Oracles V ρ) (G : Graph V) (nG : Network V)
    (x : ℚ) (network_type : String) (l_avg : ℚ) : EngineCall V :=
  let num_reqs := 10000
  ⟨nG, req_generator_uniform G num_reqs (req_rate x l_avg) o.sample2 o.expDraw,
   network_type, o.sample1 0⟩

/-- `simulate_single_request_rate(G, nG, x, network_type, l_avg)`:
run the engine on the single-rate-point invocation and return
`(sim.req_data, sim.insertion_data)`. -/
def simulate_single_request_rate {V ρ : Type} (o : Oracles V ρ) (G : Graph V)
    (nG : Network V) (x : ℚ) (network_type : String) (l_avg : ℚ) : ρ × ρ :=
  o.runEngine (engineCallOf o G nG x network_type l_avg)

/-- A pickled Result Store: a Python dict from the sweep value `x` to
the pair `(req_data, insertion_data)`, in insertion order. -/
abbrev StoreDict (ρ : Type) : Type :=
  List (ℚ × ρ × ρ)

/-- The filesystem visible to the harness: a map from paths to pickled
result stores.  `os.path.exists` is a lookup on it. -/
abbrev FS (ρ : Type) : Type :=
  List (String × StoreDict ρ)

/-- Python-dict assignment `d[k] = v`: replace the value in place when
the key is present, append the new binding otherwise (Python dicts
preserve insertion order). -/
def dictSet {K β : Type} [DecidableEq K] : List (K × β) → K → β → List (K × β)
  | [], k, v => [(k, v)]
  | (k', v') :: rest, k, v =>
    if k = k' then (k, v) :: rest else (k', v') :: dictSet rest k v

/-- The Python exceptions the harness can raise. -/
inductive PyError where
  | nameError (missing : String)
  | fileNotFound (path : String)
  deriving DecidableEq, Repr

/-- Instrumentation of one sweep-driver invocation: whether the
existing-file skip was taken, the engine invocations made, and every
result store serialized to disk (in order; the write count is
`checkpoints.length`). -/
structure SweepLog (V ρ : Type) where
  skipped : Bool
  engineCalls : List (EngineCall V)
  checkpoints : List (StoreDict ρ)

/-- The outcome of one sweep-driver invocation: a normal return
(carrying the Python return value, always `None`) or a raised
exception; both carry the filesystem left behind and the log. -/
inductive DriverResult (V ρ : Type) where
  | ok (ret : Option Unit) (fs : FS ρ) (log : SweepLog V ρ)
  | err (e : PyError) (fs : FS ρ) (log : SweepLog V ρ)

/-- The names bound in the module's global namespace (its `def`s; the
imports are irrelevant to the lookup below). -/
def definedGlobalNames : List String :=
  [("req_generator_uniform"), ("simulate_different_request_rates"),
   ("simulate_single_request_rate")]

/-- Python global-name resolution: a `NameError` when the name is not
bound in the module's global namespace. -/
def resolveGlobal (n : String) : Except PyError Unit :=
  if definedGlobalNames.contains n then Except.ok () else Except.error (PyError.nameError n)

/-- The `for x in x_range` loop of `simulate_different_request_rates`.
Faithful to the source: each iteration first resolves the call-site
name `simulate_simgle_request_rate` — which is NOT the name of the
defined function (`simulate_single_request_rate`), so the resolution
raises `NameError`; the remaining branch shows what the iteration does
with the function the call site evidently intends (the only
near-matching definition): obtain `(req_data, ins_data)`, store both
under `result[x]`, and re-serialize the whole accumulated store to
`pickle_path`. -/
def sweepLoop {V ρ : Type} (o : Oracles V ρ) (G : Graph V) (nG : Network V)
    (network_type : String) (l_avg : ℚ) (pickle_path : String) :
    List ℚ → StoreDict ρ → FS ρ → List (EngineCall V) → List (StoreDict ρ) →
      DriverResult V ρ
  | [], _, fs, calls, cps => DriverResult.ok none fs ⟨false, calls, cps⟩
  | x :: rest, result, fs, calls, cps =>
    match resolveGlobal ("simulate_simgle_request_rate") with
    | Except.error e => DriverResult.err e fs ⟨false, calls, cps⟩
    | Except.ok _ =>
      let c := engineCallOf o G nG x network_type l_avg
      let rd := o.runEngine c
      let result' := dictSet result x rd
      let fs' := dictSet fs pickle_path result'
      sweepLoop o G nG network_type l_avg pickle_path rest result' fs'
        (calls ++ [c]) (cps ++ [result'])

/-- `simulate_different_request_rates(G, pickle_path, network_type)`:
if the pickle already exists, print and `return None`; otherwise wrap
the graph, compute the average shortest-path length once, build the
100-point sweep sequence and run the sweep loop over it. -/
def simulate_different_request_rates {V ρ : Type} [DecidableEq V] [BEq V]
    (o : Oracles V ρ) (G : Graph V) (pickle_path : String)
    (network_type : String) (fs : FS ρ) : DriverResult V ρ :=
  match fs.lookup pickle_path with
  | some _ => DriverResult.ok none fs ⟨true, [], []⟩
  | none =>
    let nG : Network V := ⟨G, network_type⟩
    let l_avg := average_shortest_path_length G
    let x_range := linspace (1 / 10) 40 100
    sweepLoop o G nG network_type l_avg pickle_path x_range [] fs [] []

/-- The sweep loop with the call-site typo corrected to the defined
name `simulate_single_request_rate` (i.e., the one-token patch the
source's docstrings describe).  Used to show the specified checkpoint
behaviour is exactly what the patched code does. -/
def sweepLoopPatched {V ρ : Type} (o : Oracles V ρ) (G : Graph V) (nG : Network V)
    (network_type : String) (l_avg : ℚ) (pickle_path : String) :
    List ℚ → StoreDict ρ → FS ρ → List (EngineCall V) → List (StoreDict ρ) →
      DriverResult V ρ
  | [], _, fs, calls, cps => DriverResult.ok none fs ⟨false, calls, cps⟩
  | x :: rest, result, fs, calls, cps =>
    let c := engineCallOf o G nG x network_type l_avg
    let rd := simulate_single_request_rate o G nG x network_type l_avg
    let result' := dictSet result x rd
    let fs' := dictSet fs pickle_path result'
    sweepLoopPatched o G nG network_type l_avg pickle_path rest result' fs'
      (calls ++ [c]) (cps ++ [result'])

/-- `simulate_different_request_rates` with the call-site typo
corrected (see `sweepLoopPatched`). -/
def simulate_different_request_rates_patched {V ρ : Type} [DecidableEq V] [BEq V]
    (o : Oracles V ρ) (G : Graph V) (pickle_path : String)
    (network_type : String) (fs : FS ρ) : DriverResult V ρ :=
  match fs.lookup pickle_path with
  | some _ => DriverResult.ok none fs ⟨true, [], []⟩
  | none =>
    let nG : Network V := ⟨G, network_type⟩
    let l_avg := average_shortest_path_length G
    let x_range := linspace (1 / 10) 40 100
    sweepLoopPatched o G nG network_type l_avg pickle_path x_range [] fs [] []

/-! ## The `__main__` orchestrator -/

/-- The destination paths and input-file paths of the fixed experiment
list, exactly as the `__main__` block spells them (including the double
slash produced by `f-strings` over a `graph_path` that already ends in
a slash). -/
def ring10Pickle : String := "../data/ring_10.pkl"

def ring100Pickle : String := "../data/ring_100.pkl"

def line100Pickle : String := "../data/line_100.pkl"

def star100Pickle : String := "../data/star_100.pkl"

def grid10Pickle : String := "../data/grid_10.pkl"

def trigrid13Pickle : String := "../data/trigrid_13.pkl"

def goeGraphFile : String := "../data/homogenized_networks/goe//G_homog.gpkl"

def goePickle : String := "../data/street_goe_homogenized.pkl"

def harzGraphFile : String := "../data/homogenized_networks/harz//G_homog.gpkl"

def harzPickle : String := "../data/street_harz_homogenized.pkl"

def berlinGraphFile : String := "../data/homogenized_networks/berlin//G_homog.gpkl"

def berlinPickle : String := "../data/street_berlin_homogenized.pkl"

def allBerlinFile : String :=
  "../data/homogenized_networks/berlin//diff_coarse_graining/all_berlin.pkl"

/-- The pickle path for one coarse-grained Berlin variant. -/
def berlinVariantPickle (cg tel : ℕ) : String :=
  "../data/street_berlin_homogenized_coarse_graining_meters_" ++ toString cg ++
    "_target_edge_length_" ++ toString tel ++ ".pkl"

/-- The outcome of running the `__main__` block: the pickle paths of
the sweeps that were entered (in order), the final filesystem, and the
unhandled exception that aborted the process, if any.  The block has no
`try`/`except`, so an exception anywhere terminates the remainder. -/
structure MainRun (ρ : Type) where
  attempted : List String
  fs : FS ρ
  error : Option PyError

/-- Sequence one sweep invocation inside the straight-line `__main__`
block: record the attempt, and continue with the continuation only on a
normal return — an unhandled exception ends the whole run. -/
def seqSweep {V ρ : Type} (acc : List String) (label : String)
    (r : DriverResult V ρ) (k : List String → FS ρ → MainRun ρ) : MainRun ρ :=
  match r with
  | DriverResult.ok _ fs _ => k (acc ++ [label]) fs
  | DriverResult.err e fs _ => ⟨acc ++ [label], fs, some e⟩

/-- `nx.read_gpickle` / `open(...)` on an input file: the decoded
object when the file exists, `FileNotFoundError` otherwise.  The
decoded graphs themselves are opaque inputs, supplied by `decode`. -/
def readInputFile {α : Type} (inputFiles : List String) (decode : String → α)
    (path : String) : Except PyError α :=
  if inputFiles.contains path then Except.ok (decode path)
  else Except.error (PyError.fileNotFound path)

/-- The straight-line `__main__` block: the six synthetic sweeps, the
three street-network sweeps (each preceded by loading its graph file),
and the three coarse-grained Berlin sweeps (preceded by loading the
`all_berlin` pickle once; the in-dict key lookups are modelled by the
total function `berlinVariants`).  `Gtri` stands for
`nx.lattice.triangular_lattice_graph(13, 13)`, a library construction
whose internal structure no claim depends on; `street p` is the graph
decoded from input file `p`.  There is no exception handling anywhere:
any raised error aborts the remainder of the list. -/
def main_model {ρ : Type} (oN : Oracles ℕ ρ) (oP : Oracles (ℕ × ℕ) ρ)
    (Gtri : Graph (ℕ × ℕ)) (street : String → Graph ℕ)
    (berlinVariants : ℕ → ℕ → Graph ℕ) (inputFiles : List String)
    (fs0 : FS ρ) : MainRun ρ :=
  seqSweep [] ring10Pickle
    (simulate_different_request_rates oN (cycle_graph 10) ring10Pickle ("ring") fs0)
    fun a1 f1 =>
  seqSweep a1 ring100Pickle
    (simulate_different_request_rates oN (cycle_graph 101) ring100Pickle ("ring") f1)
    fun a2 f2 =>
  seqSweep a2 line100Pickle
    (simulate_different_request_rates oN (grid_graph_1d 100) line100Pickle ("line") f2)
    fun a3 f3 =>
  seqSweep a3 star100Pickle
    (simulate_different_request_rates oN (star_graph 100) star100Pickle ("star") f3)
    fun a4 f4 =>
  seqSweep a4 grid10Pickle
    (simulate_different_request_rates oP (grid_2d_graph 10 10) grid10Pickle ("grid") f4)
    fun a5 f5 =>
  seqSweep a5 trigrid13Pickle
    (simulate_different_request_rates oP Gtri trigrid13Pickle ("trigrid") f5)
    fun a6 f6 =>
  match readInputFile inputFiles street goeGraphFile with
  | Except.error e => ⟨a6, f6, some e⟩
  | Except.ok Ggoe =>
    seqSweep a6 goePickle
      (simulate_different_request_rates oN Ggoe goePickle ("novolcomp") f6)
      fun a7 f7 =>
    match readInputFile inputFiles street harzGraphFile with
    | Except.error e => ⟨a7, f7, some e⟩
    | Except.ok Gharz =>
      seqSweep a7 harzPickle
        (simulate_different_request_rates oN Gharz harzPickle ("novolcomp") f7)
        fun a8 f8 =>
      match readInputFile inputFiles street berlinGraphFile with
      | Except.error e => ⟨a8, f8, some e⟩
      | Except.ok Gberlin =>
        seqSweep a8 berlinPickle
          (simulate_different_request_rates oN Gberlin berlinPickle ("novolcomp") f8)
          fun a9 f9 =>
        match readInputFile inputFiles (fun _ => berlinVariants) allBerlinFile with
        | Except.error e => ⟨a9, f9, some e⟩
        | Except.ok all_Gs =>
          seqSweep a9 (berlinVariantPickle 200 400)
            (simulate_different_request_rates oN (all_Gs 200 400)
              (berlinVariantPickle 200 400) ("novolcomp") f9)
            fun a10 f10 =>
          seqSweep a10 (berlinVariantPickle 200 600)
            (simulate_different_request_rates oN (all_Gs 200 600)
              (berlinVariantPickle 200 600) ("novolcomp") f10)
            fun a11 f11 =>
          seqSweep a11 (berlinVariantPickle 200 800)
            (simulate_different_request_rates oN (all_Gs 200 800)
              (berlinVariantPickle 200 800) ("novolcomp") f11)
            fun a12 f12 => ⟨a12, f12, none⟩

-- Sanity checks on the graph models and the generator.
example : (cycle_graph 10).nodes.length = 10 := by decide
example : (star_graph 100).nodes.length = 101 := by decide
example : average_shortest_path_length (cycle_graph 10) = 25 / 9 := by
  with_unfolding_all decide
example : (linspace (1 / 10) 40 100).length = 100 := by decide
example :
    (req_generator_uniform (cycle_graph 3) 3 1 (fun _ => (0, 1)) (fun _ => 1)).map
      Request.t = [1, 2, 3] := by with_unfolding_all decide

/-! ## Structural lemmas about the request-generator loop -/

section GeneratorLemmas

variable {V : Type} (s2 : ℕ → V × V) (e : ℕ → ℚ)

theorem reqGenLoop_length :
    ∀ (fuel : ℕ) (t : ℚ) (idx : ℕ), (reqGenLoop s2 e fuel t idx).length = fuel := by
  intro fuel
  induction fuel with
  | zero => intro t idx; rfl
  | succ n ih => intro t idx; simp [reqGenLoop, ih]

theorem reqGenLoop_map_idx :
    ∀ (fuel : ℕ) (t : ℚ) (idx : ℕ),
      (reqGenLoop s2 e fuel t idx).map Request.req_idx = List.range' (idx + 1) fuel := by
  intro fuel
  induction fuel with
  | zero => intro t idx; rfl
  | succ n ih => intro t idx; simp [reqGenLoop, List.range'_succ, ih]

theorem reqGenLoop_map_t :
    ∀ (fuel : ℕ) (t : ℚ) (idx : ℕ),
      (reqGenLoop s2 e fuel t idx).map Request.t
        = (List.range fuel).map
            (fun i => t + (Finset.range (i + 1)).sum (fun k => e (idx + k))) := by
  intro fuel
  induction fuel with
  | zero => intro t idx; rfl
  | succ n ih =>
    intro t idx
    rw [List.range_succ_eq_map]
    simp only [reqGenLoop, List.map_cons, ih, List.map_map]
    refine congrArg₂ List.cons ?_ ?_
    · simp
    · apply List.map_congr_left
      intro a _
      simp only [Function.comp_apply]
      rw [Finset.sum_range_succ' (fun k => e (idx + k)) (a + 1)]
      have h1 : ∀ k, idx + 1 + k = idx + (k + 1) := by intro k; omega
      rw [Finset.sum_congr rfl (fun k _ => by rw [h1 k])]
      rw [add_assoc, add_comm (e idx)]
      simp

theorem reqGenLoop_mem_pair :
    ∀ (fuel : ℕ) (t : ℚ) (idx : ℕ) (r : Request V),
      r ∈ reqGenLoop s2 e fuel t idx →
        ∃ k, r.orig = (s2 k).1 ∧ r.dest = (s2 k).2 := by
  intro fuel
  induction fuel with
  | zero => intro t idx r h; simp [reqGenLoop] at h
  | succ n ih =>
    intro t idx r h
    rw [reqGenLoop, List.mem_cons] at h
    rcases h with h | h
    · exact ⟨idx, by rw [h], by rw [h]⟩
    · exact ih _ _ r h

/-- Partial sums of strictly positive draws are strictly increasing. -/
theorem sum_range_lt (hpos : ∀ k, 0 < e k) {i j : ℕ} (hij : i < j) :
    (Finset.range (i + 1)).sum e < (Finset.range (j + 1)).sum e := by
  refine Finset.sum_lt_sum_of_subset (Finset.range_subset.mpr (by omega))
    (Finset.mem_range.mpr (by omega)) ?_ (hpos j) (fun k _ _ => (hpos k).le)
  simp only [Finset.mem_range]
  omega

theorem req_generator_map_t (G : Graph V) (num_reqs : ℕ) (req_rate : ℚ) :
    (req_generator_uniform G num_reqs req_rate s2 e).map Request.t
      = (List.range num_reqs).map (fun i => (Finset.range (i + 1)).sum e) := by
  rw [req_generator_uniform, reqGenLoop_map_t]
  apply List.map_congr_left
  intro a _
  simp

end GeneratorLemmas

/-! ## Claims about the Arrival Process Generator and the Rate Normalizer -/

/-- **C5.** The arrival rate handed to the request generator by
`simulate_single_request_rate` is `req_rate = x/2/l_avg`, which equals
`x / (2 * l_avg)`, and for fixed `l_avg > 0` it is strictly increasing
in `x`.  (`l_avg` is computed once per sweep, before the loop, in
`simulate_different_request_rates`; see that definition.) -/
theorem C5_rate_normalization :
    (∀ x l_avg : ℚ, req_rate x l_avg = x / (2 * l_avg)) ∧
      ∀ l_avg : ℚ, 0 < l_avg → StrictMono (fun x => req_rate x l_avg) := by
  constructor
  · intro x l
    rw [req_rate, div_div]
  · intro l hl a b hab
    simp only [req_rate, div_div]
    gcongr

/-- Witness for C5 at `x = 1/10`, `l_avg = 25/9`. -/
theorem C5_witness :
    (0 : ℚ) < 25 / 9 ∧ req_rate (1 / 10) (25 / 9) = (1 / 10) / (2 * (25 / 9)) ∧
      req_rate (1 / 10) (25 / 9) < req_rate (2 / 10) (25 / 9) :=
  ⟨by norm_num, C5_rate_normalization.1 (1 / 10) (25 / 9),
    C5_rate_normalization.2 (25 / 9) (by norm_num) (by norm_num)⟩

/-- **C6.** For every graph, every `count ≥ 0` and every positive rate,
the generated stream has exactly `count` requests and their sequence
indices are exactly `1, 2, …, count` (the list `List.range' 1 count`),
in emission order, independently of the arrival-time draws. -/
theorem C6_stream_count_and_indices {V : Type} (G : Graph V) (num_reqs : ℕ)
    (rate : ℚ) (s2 : ℕ → V × V) (e : ℕ → ℚ) (_hrate : 0 < rate) :
    (req_generator_uniform G num_reqs rate s2 e).length = num_reqs ∧
      (req_generator_uniform G num_reqs rate s2 e).map Request.req_idx
        = List.range' 1 num_reqs := by
  constructor
  · rw [req_generator_uniform, reqGenLoop_length]
  · rw [req_generator_uniform, reqGenLoop_map_idx]

/-- Witness for C6: three requests on the 3-cycle at rate 1. -/
theorem C6_witness :
    (req_generator_uniform (cycle_graph 3) 3 1 (fun _ => (0, 1)) (fun _ => 1)).length = 3 ∧
      (req_generator_uniform (cycle_graph 3) 3 1 (fun _ => (0, 1))
        (fun _ => 1)).map Request.req_idx = List.range' 1 3 :=
  C6_stream_count_and_indices (cycle_graph 3) 3 1 (fun _ => (0, 1)) (fun _ => 1) one_pos

/-- **C7.** The arrival time of the `i`-th request is the running sum
of the first `i` inter-arrival draws (the `expDraw` oracle models
independent `np.random.exponential(1/rate)` samples, of mean `1/rate`),
and — the draws being strictly positive, as exponential samples are
almost surely — the arrival times are strictly increasing across the
stream. -/
theorem C7_arrival_times_running_sum {V : Type} (G : Graph V) (num_reqs : ℕ)
    (rate : ℚ) (s2 : ℕ → V × V) (e : ℕ → ℚ) :
    (req_generator_uniform G num_reqs rate s2 e).map Request.t
        = (List.range num_reqs).map (fun i => (Finset.range (i + 1)).sum e) ∧
      ((∀ k, 0 < e k) →
        ((req_generator_uniform G num_reqs rate s2 e).map Request.t).Pairwise (· < ·)) := by
  refine ⟨req_generator_map_t s2 e G num_reqs rate, fun hpos => ?_⟩
  rw [req_generator_map_t s2 e G num_reqs rate, List.pairwise_map]
  exact (List.pairwise_lt_range num_reqs).imp (fun hab => sum_range_lt e hpos hab)

/-- Witness for C7: two requests with unit draws; the times are the
partial sums `1, 2` and strictly increase. -/
theorem C7_witness :
    (0 : ℚ) < 1 ∧
      (req_generator_uniform (cycle_graph 3) 2 1 (fun _ => (0, 1)) (fun _ => 1)).map
          Request.t
        = (List.range 2).map (fun i => (Finset.range (i + 1)).sum (fun _ => (1 : ℚ))) ∧
      ((req_generator_uniform (cycle_graph 3) 2 1 (fun _ => (0, 1)) (fun _ => 1)).map
          Request.t).Pairwise (· < ·) :=
  ⟨one_pos,
    (C7_arrival_times_running_sum (cycle_graph 3) 2 1 (fun _ => (0, 1)) (fun _ => 1)).1,
    (C7_arrival_times_running_sum (cycle_graph 3) 2 1 (fun _ => (0, 1))
      (fun _ => 1)).2 (fun _ => one_pos)⟩

/-- **C8.** Origin and destination are drawn per request as a sample of
two distinct nodes from the graph's full node set (`random.sample`'s
contract on `graph.nodes()`, the `hs` hypothesis): in every generated
request origin and destination lie in the node set and differ; and for
the star topology of the experiment list the sampled node set is all
`101` nodes of `star_graph 100`, hub `0` included. -/
theorem C8_uniform_pair_sampling {V : Type} [DecidableEq V] (G : Graph V)
    (num_reqs : ℕ) (rate : ℚ) (s2 : ℕ → V × V) (e : ℕ → ℚ)
    (hs : ∀ k, (s2 k).1 ∈ G.nodes ∧ (s2 k).2 ∈ G.nodes ∧ (s2 k).1 ≠ (s2 k).2) :
    (∀ r ∈ req_generator_uniform G num_reqs rate s2 e,
        r.orig ∈ G.nodes ∧ r.dest ∈ G.nodes ∧ r.orig ≠ r.dest) ∧
      (star_graph 100).nodes.length = 101 ∧ (0 : ℕ) ∈ (star_graph 100).nodes := by
  refine ⟨fun r hr => ?_, by decide, by decide⟩
  obtain ⟨k, ho, hd⟩ := reqGenLoop_mem_pair s2 e num_reqs 0 0 r hr
  rw [ho, hd]
  exact hs k

/-- Witness for C8: a concrete request of a concrete stream on the
101-node star, sampled as `(hub, leaf 1)`. -/
theorem C8_witness :
    ((0 : ℕ) ∈ (star_graph 100).nodes ∧ (1 : ℕ) ∈ (star_graph 100).nodes ∧
        (0 : ℕ) ≠ 1) ∧
      ((⟨1, 1, 0, 1⟩ : Request ℕ).orig ∈ (star_graph 100).nodes ∧
        (⟨1, 1, 0, 1⟩ : Request ℕ).dest ∈ (star_graph 100).nodes ∧
        (⟨1, 1, 0, 1⟩ : Request ℕ).orig ≠ (⟨1, 1, 0, 1⟩ : Request ℕ).dest) := by
  have h0 : (0 : ℕ) ∈ (star_graph 100).nodes := by decide
  have h1 : (1 : ℕ) ∈ (star_graph 100).nodes := by decide
  have hne : (0 : ℕ) ≠ 1 := by decide
  exact ⟨⟨h0, h1, hne⟩,
    (C8_uniform_pair_sampling (star_graph 100) 1 1 (fun _ => (0, 1)) (fun _ => 1)
      (fun _ => ⟨h0, h1, hne⟩)).1 ⟨1, 1, 0, 1⟩ (by with_unfolding_all decide)⟩

/-! ## The sweep driver: skip path and run path -/

/-- Whether the invocation ended in a raised exception rather than a
normal return. -/
def DriverResult.raised {V ρ : Type} : DriverResult V ρ → Bool
  | DriverResult.ok _ _ _ => false
  | DriverResult.err _ _ _ => true

/-- The call-site name `simulate_simgle_request_rate` is not bound in
the module's global namespace (the defined function is
`simulate_single_request_rate`), so resolving it raises `NameError`. -/
theorem resolve_simgle :
    resolveGlobal ("simulate_simgle_request_rate")
      = Except.error (PyError.nameError ("simulate_simgle_request_rate")) := by
  rfl

/-- On any nonempty remaining sweep sequence, the loop raises
`NameError` at once: no engine call, no store insertion, no write. -/
theorem sweepLoop_cons_err {V ρ : Type} (o : Oracles V ρ) (G : Graph V)
    (nG : Network V) (tag : String) (l_avg : ℚ) (path : String) (x : ℚ)
    (rest : List ℚ) (result : StoreDict ρ) (fs : FS ρ)
    (calls : List (EngineCall V)) (cps : List (StoreDict ρ)) :
    sweepLoop o G nG tag l_avg path (x :: rest) result fs calls cps
      = DriverResult.err (PyError.nameError ("simulate_simgle_request_rate")) fs
          ⟨false, calls, cps⟩ := by
  rw [sweepLoop, resolve_simgle]

theorem linspace_length (a b : ℚ) (num : ℕ) : (linspace a b num).length = num := by
  rw [linspace, List.length_map, List.length_range]

theorem linspace_pairwise_lt (a b : ℚ) (num : ℕ) (h : a < b) (hnum : 2 ≤ num) :
    (linspace a b num).Pairwise (· < ·) := by
  rw [linspace, List.pairwise_map]
  refine (List.pairwise_lt_range num).imp ?_
  intro i j hij
  have hd : 0 < (b - a) / ((num : ℚ) - 1) := by
    apply div_pos (by linarith)
    have : (2 : ℚ) ≤ (num : ℚ) := by exact_mod_cast hnum
    linarith
  have hcast : (i : ℚ) < (j : ℚ) := by exact_mod_cast hij
  have := mul_lt_mul_of_pos_right hcast hd
  linarith

theorem x_range_ne_nil : linspace (1 / 10) 40 100 ≠ [] := by
  intro h
  have hl := linspace_length (1 / 10) 40 100
  rw [h] at hl
  simp at hl

/-- Skip path of the driver: when the pickle path exists (with any
content), the driver returns `None` at once, leaving the filesystem —
in particular the file's content — untouched, with no engine call and
no write. -/
theorem driver_skip_of_exists {V ρ : Type} [DecidableEq V] [BEq V]
    (o : Oracles V ρ) (G : Graph V) (path tag : String) (fs : FS ρ)
    (c : StoreDict ρ) (h : fs.lookup path = some c) :
    simulate_different_request_rates o G path tag fs
      = DriverResult.ok none fs ⟨true, [], []⟩ := by
  unfold simulate_different_request_rates
  rw [h]

/-- Run path of the driver: when the pickle path does not exist, the
first loop iteration raises `NameError` — before any engine call,
store insertion or write, and before the file is ever created. -/
theorem driver_err_of_not_exists {V ρ : Type} [DecidableEq V] [BEq V]
    (o : Oracles V ρ) (G : Graph V) (path tag : String) (fs : FS ρ)
    (h : fs.lookup path = none) :
    simulate_different_request_rates o G path tag fs
      = DriverResult.err (PyError.nameError ("simulate_simgle_request_rate")) fs
          ⟨false, [], []⟩ := by
  unfold simulate_different_request_rates
  rw [h]
  show sweepLoop o G ⟨G, tag⟩ tag (average_shortest_path_length G) path
      (linspace (1 / 10) 40 100) [] fs [] [] = _
  obtain ⟨x, rest, hx⟩ : ∃ x rest, linspace (1 / 10) 40 100 = x :: rest := by
    cases hxs : linspace (1 / 10) 40 100 with
    | nil => exact absurd hxs x_range_ne_nil
    | cons a l => exact ⟨a, l, rfl⟩
  rw [hx]
  exact sweepLoop_cons_err o G ⟨G, tag⟩ tag (average_shortest_path_length G) path x
    rest [] fs [] []

/-! ## Concrete instances used by the closed theorems -/

/-- Trivial oracle instance over node type `ℕ` with opaque payload
`Unit`; used to evaluate the harness on concrete inputs. -/
def trivOraclesN : Oracles ℕ Unit :=
  ⟨fun _ => (0, 1), fun _ => 0, fun _ => 1, fun _ => ((), ())⟩

/-- Trivial oracle instance over node type `ℕ × ℕ`. -/
def trivOraclesP : Oracles (ℕ × ℕ) Unit :=
  ⟨fun _ => ((0, 0), (0, 1)), fun _ => (0, 0), fun _ => 1, fun _ => ((), ())⟩

/-- A stand-in for the opaque triangular-lattice graph parameter. -/
def trivTrigrid : Graph (ℕ × ℕ) :=
  ⟨[(0, 0)], fun _ _ => false⟩

/-- A filesystem on which the six synthetic-topology pickles already
exist (with empty stores) and nothing else does. -/
def sixPicklesFS : FS Unit :=
  [(ring10Pickle, []), (ring100Pickle, []), (line100Pickle, []),
   (star100Pickle, []), (grid10Pickle, []), (trigrid13Pickle, [])]

/-! ## Claims about the sweep driver and the orchestrator -/

/-- **C1** (code bug).  The spec says the driver, entered on a fresh
durable-store path, iterates all 100 sweep points, simulating and
persisting each, and reaches Done.  The code instead raises
`NameError` at the first point: the loop body calls
`simulate_simgle_request_rate`, a name the module never defines (the
function is defined as `simulate_single_request_rate`), so no engine
invocation, no store entry and no write ever happens and the function
never returns. -/
theorem C1_run_path_raises_nameError {V ρ : Type} [DecidableEq V] [BEq V]
    (o : Oracles V ρ) (G : Graph V) (pickle_path network_type : String)
    (fs : FS ρ) (h : fs.lookup pickle_path = none) :
    simulate_different_request_rates o G pickle_path network_type fs
      = DriverResult.err (PyError.nameError ("simulate_simgle_request_rate")) fs
          ⟨false, [], []⟩ :=
  driver_err_of_not_exists o G pickle_path network_type fs h

/-- Witness for C1: the 10-node-ring sweep on an empty filesystem. -/
theorem C1_witness :
    (([] : FS Unit).lookup ring10Pickle = none) ∧
      simulate_different_request_rates trivOraclesN (cycle_graph 10) ring10Pickle
          ("ring") ([] : FS Unit)
        = DriverResult.err (PyError.nameError ("simulate_simgle_request_rate")) []
            ⟨false, [], []⟩ :=
  ⟨rfl, C1_run_path_raises_nameError trivOraclesN (cycle_graph 10) ring10Pickle
    ("ring") [] rfl⟩

/-- **C3.** When the durable-store path already exists — whatever the
existing content `c`, complete or partial — the driver returns `None`
immediately: no graph wrapping is consumed, no engine call, no write,
and the filesystem (hence the file's content) is returned unchanged.
File existence is the sole signal consulted. -/
theorem C3_existing_path_skips {V ρ : Type} [DecidableEq V] [BEq V]
    (o : Oracles V ρ) (G : Graph V) (path tag : String) (fs : FS ρ)
    (c : StoreDict ρ) (h : fs.lookup path = some c) :
    simulate_different_request_rates o G path tag fs
      = DriverResult.ok none fs ⟨true, [], []⟩ :=
  driver_skip_of_exists o G path tag fs c h

/-- Witness for C3: a filesystem holding a (partial, even empty) store
at the ring-100 path; the sweep is skipped and the file kept as is. -/
theorem C3_witness :
    ([(ring100Pickle, ([] : StoreDict Unit))].lookup ring100Pickle = some []) ∧
      simulate_different_request_rates trivOraclesN (cycle_graph 101) ring100Pickle
          ("ring") [(ring100Pickle, [])]
        = DriverResult.ok none [(ring100Pickle, [])] ⟨true, [], []⟩ :=
  ⟨rfl, C3_existing_path_skips trivOraclesN (cycle_graph 101) ring100Pickle ("ring")
    [(ring100Pickle, [])] [] rfl⟩

/-- **C4** (code bug).  The spec's monotonic-checkpoint-growth
invariant — after the `i`-th processed point the store on disk holds
exactly the first `i` sweep values — never materialises in the code:
on the star-topology sweep over a fresh filesystem the loop raises
`NameError` before its first insertion, the checkpoint log stays empty
and the file is never created.  (The patched-dispatch development
below, `patched_driver_checkpoint_growth`, shows the invariant is
exactly what the loop body produces once the call-site typo is
fixed.) -/
theorem C4_no_checkpoint_written :
    simulate_different_request_rates trivOraclesN (star_graph 100) star100Pickle
        ("star") ([] : FS Unit)
      = DriverResult.err (PyError.nameError ("simulate_simgle_request_rate"))
          ([] : FS Unit) ⟨false, [], []⟩ :=
  driver_err_of_not_exists trivOraclesN (star_graph 100) star100Pickle ("star") [] rfl

/-- **C10** (counterexample).  The claim says the driver returns `None`
on every path.  On the run path it does not return at all: entered on a
fresh filesystem it raises `NameError` (`raised = true`), so only
skipped invocations ever produce the `None` return value. -/
theorem C10_counterexample :
    (simulate_different_request_rates trivOraclesN (cycle_graph 101) ring100Pickle
        ("ring") ([] : FS Unit)).raised = true ∧
      simulate_different_request_rates trivOraclesN (cycle_graph 101) ring100Pickle
          ("ring") ([] : FS Unit)
        = DriverResult.err (PyError.nameError ("simulate_simgle_request_rate")) []
            ⟨false, [], []⟩ := by
  have h := driver_err_of_not_exists trivOraclesN (cycle_graph 101) ring100Pickle
    ("ring") ([] : FS Unit) rfl
  rw [h]
  exact ⟨rfl, rfl⟩

/-- **C10** (amended).  The driver returns `None` whenever it returns:
the skip path returns `None` with everything unchanged, and the
would-be run path raises `NameError` before ever returning, so no
caller can observe a completed sweep through the return value and the
result store is observable only through the pickle file. -/
theorem C10_amended_return_values {V ρ : Type} [DecidableEq V] [BEq V]
    (o : Oracles V ρ) (G : Graph V) (path tag : String) (fs : FS ρ) :
    (∀ c, fs.lookup path = some c →
        simulate_different_request_rates o G path tag fs
          = DriverResult.ok none fs ⟨true, [], []⟩) ∧
      (fs.lookup path = none →
        simulate_different_request_rates o G path tag fs
          = DriverResult.err (PyError.nameError ("simulate_simgle_request_rate")) fs
              ⟨false, [], []⟩) :=
  ⟨fun c h => driver_skip_of_exists o G path tag fs c h,
    fun h => driver_err_of_not_exists o G path tag fs h⟩

/-- Witness for C10: both branches at concrete inputs — a skipped
grid sweep returns `None`; a fresh grid sweep raises. -/
theorem C10_witness :
    simulate_different_request_rates trivOraclesP (grid_2d_graph 10 10) grid10Pickle
        ("grid") [(grid10Pickle, [])]
      = DriverResult.ok none [(grid10Pickle, [])] ⟨true, [], []⟩ ∧
      simulate_different_request_rates trivOraclesP (grid_2d_graph 10 10) grid10Pickle
          ("grid") ([] : FS Unit)
        = DriverResult.err (PyError.nameError ("simulate_simgle_request_rate")) []
            ⟨false, [], []⟩ :=
  ⟨(C10_amended_return_values trivOraclesP (grid_2d_graph 10 10) grid10Pickle ("grid")
      [(grid10Pickle, [])]).1 [] rfl,
    (C10_amended_return_values trivOraclesP (grid_2d_graph 10 10) grid10Pickle ("grid")
      ([] : FS Unit)).2 rfl⟩

/-- **C9.** For the 10-node ring: the average shortest-path length is
exactly `25/9` (≈ 2.778); the normalized rate at `x = 0.1` is exactly
`9/500` (= 0.018); and the engine invocation built by
`simulate_single_request_rate` at that point carries a request stream
of exactly `10000` requests generated at that rate. -/
theorem C9_ring10_scenario {ρ : Type} (o : Oracles ℕ ρ) (nG : Network ℕ) :
    average_shortest_path_length (cycle_graph 10) = 25 / 9 ∧
      req_rate (1 / 10) (25 / 9) = 9 / 500 ∧
      (engineCallOf o (cycle_graph 10) nG (1 / 10) ("ring") (25 / 9)).requests
        = req_generator_uniform (cycle_graph 10) 10000 (req_rate (1 / 10) (25 / 9))
            o.sample2 o.expDraw ∧
      (engineCallOf o (cycle_graph 10) nG (1 / 10) ("ring") (25 / 9)).requests.length
        = 10000 := by
  refine ⟨by with_unfolding_all decide, ?_, rfl, ?_⟩
  · rw [req_rate]
    norm_num
  · show (req_generator_uniform (cycle_graph 10) 10000 (req_rate (1 / 10) (25 / 9))
        o.sample2 o.expDraw).length = 10000
    rw [req_generator_uniform, reqGenLoop_length]

/-- **C2** (counterexample).  On a filesystem where the six synthetic
pickles exist (so their sweeps are skipped) and the Göttingen graph
file is missing, `__main__` aborts at the Göttingen triple with
`FileNotFoundError`: the Harz and Berlin sweeps are never attempted
and their pickles are never written — contradicting the claim that a
failure in one triple does not prevent subsequent triples. -/
theorem C2_counterexample :
    (main_model trivOraclesN trivOraclesP trivTrigrid (fun _ => cycle_graph 3)
          (fun _ _ => cycle_graph 3) [] sixPicklesFS).error
        = some (PyError.fileNotFound goeGraphFile) ∧
      (main_model trivOraclesN trivOraclesP trivTrigrid (fun _ => cycle_graph 3)
            (fun _ _ => cycle_graph 3) [] sixPicklesFS).attempted
        = [ring10Pickle, ring100Pickle, line100Pickle, star100Pickle, grid10Pickle,
           trigrid13Pickle] ∧
      (main_model trivOraclesN trivOraclesP trivTrigrid (fun _ => cycle_graph 3)
            (fun _ _ => cycle_graph 3) [] sixPicklesFS).fs.lookup harzPickle = none ∧
      (main_model trivOraclesN trivOraclesP trivTrigrid (fun _ => cycle_graph 3)
            (fun _ _ => cycle_graph 3) [] sixPicklesFS).fs.lookup berlinPickle
        = none :=
  ⟨rfl, rfl, rfl, rfl⟩

/-- **C2** (amended).  The `__main__` block runs the triples strictly
sequentially with no exception handling, so a fatal failure while
processing one triple (here: the missing Göttingen street-network
graph file) aborts the whole orchestrator run: the run ends with that
error, only the six earlier triples were attempted, and the filesystem
is exactly as it was (no later pickle is ever written). -/
theorem C2_amended_abort_propagates {ρ : Type} (oN : Oracles ℕ ρ)
    (oP : Oracles (ℕ × ℕ) ρ) (Gtri : Graph (ℕ × ℕ)) (street : String → Graph ℕ)
    (bv : ℕ → ℕ → Graph ℕ) (inputFiles : List String) (fs0 : FS ρ)
    (h1 : ∃ c, fs0.lookup ring10Pickle = some c)
    (h2 : ∃ c, fs0.lookup ring100Pickle = some c)
    (h3 : ∃ c, fs0.lookup line100Pickle = some c)
    (h4 : ∃ c, fs0.lookup star100Pickle = some c)
    (h5 : ∃ c, fs0.lookup grid10Pickle = some c)
    (h6 : ∃ c, fs0.lookup trigrid13Pickle = some c)
    (hgoe : inputFiles.contains goeGraphFile = false) :
    main_model oN oP Gtri street bv inputFiles fs0
      = ⟨[ring10Pickle, ring100Pickle, line100Pickle, star100Pickle, grid10Pickle,
          trigrid13Pickle], fs0, some (PyError.fileNotFound goeGraphFile)⟩ := by
  obtain ⟨c1, h1⟩ := h1
  obtain ⟨c2, h2⟩ := h2
  obtain ⟨c3, h3⟩ := h3
  obtain ⟨c4, h4⟩ := h4
  obtain ⟨c5, h5⟩ := h5
  obtain ⟨c6, h6⟩ := h6
  unfold main_model
  rw [driver_skip_of_exists oN (cycle_graph 10) ring10Pickle ("ring") fs0 c1 h1]
  simp only [seqSweep]
  rw [driver_skip_of_exists oN (cycle_graph 101) ring100Pickle ("ring") fs0 c2 h2]
  simp only [seqSweep]
  rw [driver_skip_of_exists oN (grid_graph_1d 100) line100Pickle ("line") fs0 c3 h3]
  simp only [seqSweep]
  rw [driver_skip_of_exists oN (star_graph 100) star100Pickle ("star") fs0 c4 h4]
  simp only [seqSweep]
  rw [driver_skip_of_exists oP (grid_2d_graph 10 10) grid10Pickle ("grid") fs0 c5 h5]
  simp only [seqSweep]
  rw [driver_skip_of_exists oP Gtri trigrid13Pickle ("trigrid") fs0 c6 h6]
  simp only [seqSweep]
  rw [readInputFile, hgoe]
  simp

/-- Witness for C2 (amended): the concrete six-pickles filesystem with
no input files. -/
theorem C2_witness :
    sixPicklesFS.lookup ring10Pickle = some [] ∧
      sixPicklesFS.lookup ring100Pickle = some [] ∧
      sixPicklesFS.lookup line100Pickle = some [] ∧
      sixPicklesFS.lookup star100Pickle = some [] ∧
      sixPicklesFS.lookup grid10Pickle = some [] ∧
      sixPicklesFS.lookup trigrid13Pickle = some [] ∧
      (([] : List String).contains goeGraphFile = false) ∧
      main_model trivOraclesN trivOraclesP trivTrigrid (fun _ => cycle_graph 3)
          (fun _ _ => cycle_graph 3) [] sixPicklesFS
        = ⟨[ring10Pickle, ring100Pickle, line100Pickle, star100Pickle, grid10Pickle,
            trigrid13Pickle], sixPicklesFS, some (PyError.fileNotFound goeGraphFile)⟩ :=
  ⟨rfl, rfl, rfl, rfl, rfl, rfl, rfl,
    C2_amended_abort_propagates trivOraclesN trivOraclesP trivTrigrid
      (fun _ => cycle_graph 3) (fun _ _ => cycle_graph 3) [] sixPicklesFS
      ⟨[], rfl⟩ ⟨[], rfl⟩ ⟨[], rfl⟩ ⟨[], rfl⟩ ⟨[], rfl⟩ ⟨[], rfl⟩ rfl⟩

/-! ## The patched driver: the checkpoint behaviour the spec describes

The theorems below settle what `simulate_different_request_rates` does
once its call-site typo is corrected to the defined name
(`simulate_different_request_rates_patched`): the sweep runs all 100
points, invokes the engine once per point, and after the `i`-th point
the serialized store holds exactly the first `i + 1` sweep values, in
increasing order, never removing or overwriting an earlier entry. -/

/-- Setting a key that is not yet present appends the binding. -/
theorem dictSet_append {K β : Type} [DecidableEq K] :
    ∀ (d : List (K × β)) (k : K) (v : β), k ∉ d.map Prod.fst →
      dictSet d k v = d ++ [(k, v)] := by
  intro d
  induction d with
  | nil => intro k v _; rfl
  | cons p rest ih =>
    intro k v hk
    obtain ⟨k', v'⟩ := p
    have hne : k ≠ k' := by
      intro he
      apply hk
      rw [List.map_cons, he]
      exact List.mem_cons_self _ _
    have hrest : k ∉ rest.map Prod.fst := by
      intro hm
      apply hk
      rw [List.map_cons]
      exact List.mem_cons_of_mem _ hm
    simp only [dictSet, if_neg hne]
    rw [ih k v hrest]
    rfl

/-- `d[k] = v` makes `k` look up to `v`. -/
theorem lookup_dictSet_self {K β : Type} [DecidableEq K] [BEq K] [LawfulBEq K] :
    ∀ (d : List (K × β)) (k : K) (v : β), (dictSet d k v).lookup k = some v := by
  intro d
  induction d with
  | nil => intro k v; simp [dictSet, List.lookup]
  | cons p rest ih =>
    intro k v
    obtain ⟨k', v'⟩ := p
    by_cases hk : k = k'
    · simp [dictSet, hk, List.lookup]
    · simp only [dictSet, if_neg hk, List.lookup]
      rw [show (k == k') = false from beq_eq_false_iff_ne.mpr hk]
      exact ih k v

/-- After writing each of `l ++ [st]` in turn to path `k`, the file at
`k` holds the last store written. -/
theorem lookup_foldl_dictSet {K β : Type} [DecidableEq K] [BEq K] [LawfulBEq K]
    (k : K) :
    ∀ (l : List β) (st : β) (d : List (K × β)),
      ((l ++ [st]).foldl (fun f s => dictSet f k s) d).lookup k = some st := by
  intro l
  induction l with
  | nil => intro st d; simp [lookup_dictSet_self]
  | cons a l ih => intro st d; simp only [List.cons_append, List.foldl_cons]; exact ih st _

/-- The engine invocations of the patched sweep loop: one per sweep
value, in order. -/
def callsOf {V ρ : Type} (o : Oracles V ρ) (G : Graph V) (nG : Network V)
    (tag : String) (l_avg : ℚ) (xs : List ℚ) : List (EngineCall V) :=
  xs.map (fun x => engineCallOf o G nG x tag l_avg)

/-- The successive accumulated result stores of the patched sweep loop:
the store serialized after each point. -/
def storesPrefixes {V ρ : Type} (o : Oracles V ρ) (G : Graph V) (nG : Network V)
    (tag : String) (l_avg : ℚ) : List ℚ → StoreDict ρ → List (StoreDict ρ)
  | [], _ => []
  | x :: rest, result =>
    let result' := dictSet result x (o.runEngine (engineCallOf o G nG x tag l_avg))
    result' :: storesPrefixes o G nG tag l_avg rest result'

theorem storesPrefixes_length {V ρ : Type} (o : Oracles V ρ) (G : Graph V)
    (nG : Network V) (tag : String) (l_avg : ℚ) :
    ∀ (xs : List ℚ) (result : StoreDict ρ),
      (storesPrefixes o G nG tag l_avg xs result).length = xs.length := by
  intro xs
  induction xs with
  | nil => intro result; rfl
  | cons x rest ih => intro result; simp [storesPrefixes, ih]

/-- Closed-form description of the patched sweep loop: it completes
normally (returning `None`), invokes the engine once per remaining
sweep value, serializes after every point, and the filesystem ends as
the fold of those serializations. -/
theorem sweepLoopPatched_eq {V ρ : Type} (o : Oracles V ρ) (G : Graph V)
    (nG : Network V) (tag : String) (l_avg : ℚ) (path : String) :
    ∀ (xs : List ℚ) (result : StoreDict ρ) (fs : FS ρ)
      (calls : List (EngineCall V)) (cps : List (StoreDict ρ)),
      sweepLoopPatched o G nG tag l_avg path xs result fs calls cps
        = DriverResult.ok none
            ((storesPrefixes o G nG tag l_avg xs result).foldl
              (fun f st => dictSet f path st) fs)
            ⟨false, calls ++ callsOf o G nG tag l_avg xs,
              cps ++ storesPrefixes o G nG tag l_avg xs result⟩ := by
  intro xs
  induction xs with
  | nil =>
    intro result fs calls cps
    simp [sweepLoopPatched, storesPrefixes, callsOf]
  | cons x rest ih =>
    intro result fs calls cps
    rw [sweepLoopPatched]
    rw [ih]
    simp [storesPrefixes, callsOf, simulate_single_request_rate, List.append_assoc]

/-- Keys of the `i`-th serialized store: the keys already present plus
the first `i + 1` sweep values, in order — nothing is ever dropped or
overwritten while sweeping distinct fresh values. -/
theorem storesPrefixes_keys {V ρ : Type} (o : Oracles V ρ) (G : Graph V)
    (nG : Network V) (tag : String) (l_avg : ℚ) :
    ∀ (xs : List ℚ) (result : StoreDict ρ), xs.Nodup →
      (∀ x ∈ xs, x ∉ result.map Prod.fst) →
      ∀ (i : ℕ) (h : i < (storesPrefixes o G nG tag l_avg xs result).length),
        ((storesPrefixes o G nG tag l_avg xs result).get ⟨i, h⟩).map Prod.fst
          = result.map Prod.fst ++ xs.take (i + 1) := by
  intro xs
  induction xs with
  | nil =>
    intro result _ _ i h
    simp [storesPrefixes] at h
  | cons x rest ih =>
    intro result hnd hfresh i h
    have hx : x ∉ result.map Prod.fst := hfresh x (List.mem_cons_self x rest)
    have hxrest : x ∉ rest := (List.nodup_cons.mp hnd).1
    have happ := dictSet_append result x
      (o.runEngine (engineCallOf o G nG x tag l_avg)) hx
    cases i with
    | zero =>
      simp only [storesPrefixes, List.get]
      rw [happ, List.map_append]
      simp
    | succ n =>
      have hfresh' : ∀ y ∈ rest,
          y ∉ (dictSet result x
            (o.runEngine (engineCallOf o G nG x tag l_avg))).map Prod.fst := by
        intro y hy
        rw [happ, List.map_append, List.mem_append]
        rintro (hmem | hmem)
        · exact hfresh y (List.mem_cons_of_mem x hy) hmem
        · simp only [List.map_cons, List.map_nil, List.mem_singleton] at hmem
          exact hxrest (hmem ▸ hy)
      have hlen : n < (storesPrefixes o G nG tag l_avg rest
          (dictSet result x (o.runEngine (engineCallOf o G nG x tag l_avg)))).length := by
        have hh := h
        simp only [storesPrefixes, List.length_cons] at hh
        omega
      have htail := ih (dictSet result x
          (o.runEngine (engineCallOf o G nG x tag l_avg)))
        (List.nodup_cons.mp hnd).2 hfresh' n hlen
      simp only [storesPrefixes, List.get] at htail ⊢
      rw [htail, happ, List.map_append]
      simp [List.take_cons]

/-- The 100-point sweep sequence has pairwise distinct values
(indeed strictly increasing ones). -/
theorem x_range_nodup : (linspace (1 / 10) 40 100).Nodup :=
  (linspace_pairwise_lt (1 / 10) 40 100 (by norm_num) (by norm_num)).nodup

/-- The patched driver on a fresh path completes normally, with one
engine call and one whole-store serialization per sweep point. -/
theorem patched_driver_completes {V ρ : Type} [DecidableEq V] [BEq V]
    (o : Oracles V ρ) (G : Graph V) (path tag : String) (fs : FS ρ)
    (h : fs.lookup path = none) :
    simulate_different_request_rates_patched o G path tag fs
      = DriverResult.ok none
          ((storesPrefixes o G ⟨G, tag⟩ tag (average_shortest_path_length G)
              (linspace (1 / 10) 40 100) []).foldl (fun f st => dictSet f path st) fs)
          ⟨false,
            callsOf o G ⟨G, tag⟩ tag (average_shortest_path_length G)
              (linspace (1 / 10) 40 100),
            storesPrefixes o G ⟨G, tag⟩ tag (average_shortest_path_length G)
              (linspace (1 / 10) 40 100) []⟩ := by
  unfold simulate_different_request_rates_patched
  rw [h]
  show sweepLoopPatched o G ⟨G, tag⟩ tag (average_shortest_path_length G) path
      (linspace (1 / 10) 40 100) [] fs [] [] = _
  rw [sweepLoopPatched_eq]
  simp

/-- Monotonic checkpoint growth of the patched driver: 100 points, one
engine call each, and the `i`-th serialized store holds exactly the
first `i + 1` sweep values as keys, in increasing order. -/
theorem patched_driver_checkpoint_growth {V ρ : Type} (o : Oracles V ρ)
    (G : Graph V) (nG : Network V) (tag : String) (l_avg : ℚ) :
    (storesPrefixes o G nG tag l_avg (linspace (1 / 10) 40 100) []).length = 100 ∧
      (callsOf o G nG tag l_avg (linspace (1 / 10) 40 100)).length = 100 ∧
      ∀ (i : ℕ)
        (h : i < (storesPrefixes o G nG tag l_avg (linspace (1 / 10) 40 100) []).length),
        ((storesPrefixes o G nG tag l_avg (linspace (1 / 10) 40 100) []).get
            ⟨i, h⟩).map Prod.fst
          = (linspace (1 / 10) 40 100).take (i + 1) := by
  refine ⟨?_, ?_, ?_⟩
  · rw [storesPrefixes_length, linspace_length]
  · rw [callsOf, List.length_map, linspace_length]
  · intro i h
    have hkeys := storesPrefixes_keys o G nG tag l_avg (linspace (1 / 10) 40 100) []
      x_range_nodup (by intro x _; simp) i h
    simpa using hkeys

end GenerateAllData
